import Mathlib

/-!
Shallow embedding of the backend of the LLM-Zoomcamp-RAG-Project repository
(src/backend/config.py, src/backend/rag_service.py, src/backend/main.py,
src/backend/ingest_qdrant.py).

External services (the Qdrant vector store, the sentence-transformers
embedding model, the OpenAI LLM) are modelled as oracles/inputs: the list of
scored points a vector search returns, a function from prompt text to answer
text, and an `Except`-valued collection listing.  Python dict payload values
are modelled by the inductive `PyVal`; floating-point scores are modelled as
rationals.
-/

/-- A Python value as it occurs in a Qdrant payload field: a string, `None`,
an int, a bool, or a (possibly nested) list of such values. -/
inductive PyVal where
  | str (s : String)
  | none
  | int (n : Int)
  | bool (b : Bool)
  | list (ts : List PyVal)

mutual

/-- Python `repr` of a payload value (approximation: `repr` of a string is the
string wrapped in single quotes, without modelling Python escaping of special
characters).  Used only through `pyStr` below. -/
def pyRepr : PyVal → String
  | PyVal.str s => "\x27" ++ s ++ "\x27"
  | PyVal.none => "None"
  | PyVal.int n => toString n
  | PyVal.bool b => if b then "True" else "False"
  | PyVal.list ts => "[" ++ pyReprList ts ++ "]"

def pyReprList : List PyVal → String
  | [] => ""
  | [t] => pyRepr t
  | t :: t2 :: ts => pyRepr t ++ ", " ++ pyReprList (t2 :: ts)

end

/-- Python `str` of a payload value: a string is returned as-is, any other
value renders as its `repr`-based text (`None`, `True`, `[...]`, digits). -/
def pyStr : PyVal → String
  | PyVal.str s => s
  | v => pyRepr v

/-- The Python test `t is None` on a payload value. -/
def PyVal.isNone : PyVal → Bool
  | PyVal.none => true
  | _ => false

/-- The Python test `isinstance(v, list)` on a payload value. -/
def PyVal.isList : PyVal → Bool
  | PyVal.list _ => true
  | _ => false

/-- The whitespace characters stripped by Python `str.strip()` (ASCII part;
exotic Unicode space characters are not modelled). -/
def isPyWhitespace (c : Char) : Bool :=
  c = ' ' || c = '\t' || c = '\n' || c = '\x0d' || c = '\x0b' || c = '\x0c'

/-- Python `str.strip()`: drop leading and trailing whitespace. -/
def pyStrip (s : String) : String :=
  String.mk (((s.data.dropWhile isPyWhitespace).reverse.dropWhile isPyWhitespace).reverse)

/-- Truthiness of an `Optional[str]` configuration attribute: Python
`not getattr(cls, key)` is true exactly when the value is `None` or `""`. -/
def truthyOptStr : Option String → Bool
  | Option.none => false
  | Option.some s => !s.isEmpty

/-- src/backend/config.py, class `Config`: the environment-driven settings.
Only the fields the embedded code reads are carried; `OPENAI_API_KEY` and
`NOTION_TOKEN` are `Optional[str]` (no default), the rest have defaults. -/
structure Config where
  OPENAI_API_KEY : Option String
  NOTION_TOKEN : Option String
  QDRANT_HOST : String
  QDRANT_PORT : Nat
  COLLECTION_NAME : String
  EMBEDDING_MODEL : String
  LLM_MODEL : String
  DEFAULT_SEARCH_LIMIT : Nat

/-- Python `getattr(cls, key)` for the `Optional[str]` keys that
`Config.validate` can look up (its `required_keys` list only ever contains
`"OPENAI_API_KEY"`). -/
def Config.getKey (cfg : Config) : String → Option String
  | "OPENAI_API_KEY" => cfg.OPENAI_API_KEY
  | "NOTION_TOKEN" => cfg.NOTION_TOKEN
  | _ => Option.none

/-- src/backend/config.py, `Config.validate`: collects the required keys whose
value is falsy and raises `ValueError` naming them, otherwise returns True. -/
def Config.validate (cfg : Config) : Except String Bool :=
  let required_keys := ["OPENAI_API_KEY"]
  let missing_keys := required_keys.filter (fun key => !truthyOptStr (cfg.getKey key))
  if !missing_keys.isEmpty then
    Except.error ("Missing required environment variables: " ++ String.intercalate ", " missing_keys)
  else
    Except.ok true

/-- A Qdrant point payload (the dict stored with each vector).  Ingestion
writes string values for `podcast_title` and `content`; `podcast_tag` may be
any payload value (in particular a list).  A missing key is `Option.none`. -/
structure Payload where
  podcast_title : Option String
  podcast_tag : Option PyVal
  content : Option String

/-- A scored point as returned by `qdrant_client.search`: id, similarity
score (a float, modelled as a rational) and an optional payload. -/
structure ScoredPoint where
  id : Nat
  score : Rat
  payload : Option Payload

/-- A formatted search result, one entry of the list built by
`RAGService.search_similar_content`. -/
structure SearchResult where
  id : Nat
  score : Rat
  podcast_tag : PyVal
  podcast_title : String
  content : String

namespace RAGService

/-- src/backend/rag_service.py, the loop body of `search_similar_content`
(lines 87-99): `payload = scored_point.payload or \x7b\x7d`, tag defaults to
`""`, a list tag is joined with `", "` after dropping `None` entries and
stringifying the rest, title and content default to `""`. -/
def format_point (scored_point : ScoredPoint) : SearchResult :=
  let payload := scored_point.payload.getD ⟨Option.none, Option.none, Option.none⟩
  let tag_value := payload.podcast_tag.getD (PyVal.str "")
  let tag_value :=
    match tag_value with
    | PyVal.list ts =>
        PyVal.str (String.intercalate ", " ((ts.filter (fun t => !t.isNone)).map pyStr))
    | v => v
  { id := scored_point.id
    score := scored_point.score
    podcast_tag := tag_value
    podcast_title := payload.podcast_title.getD ""
    content := payload.content.getD "" }

/-- src/backend/rag_service.py, `RAGService.search_similar_content`: the
embedding and the Qdrant query are external, so the raw store response
`search_result` is the input; the function formats every scored point in
order. -/
def search_similar_content (search_result : List ScoredPoint) : List SearchResult :=
  search_result.map format_point

/-- The part of the `generate_rag_prompt` template before the `context`
placeholder (src/backend/rag_service.py lines 119-121). -/
def template_head : String :=
  "You are an AI assistant helping users understand podcast content. Use the provided context to answer the user\x27s question accurately and comprehensively.\n\nContext from podcast transcripts:\n"

/-- The part of the template between the `context` and `query` placeholders. -/
def template_mid : String :=
  "\n\nUser Question: "

/-- The fixed instructions after the `query` placeholder (template lines
126-133). -/
def template_tail : String :=
  "\n\nInstructions:\n- Base your answer primarily on the provided context\n- If the context doesn\x27t contain enough information, clearly state this\n- Provide a comprehensive and helpful answer\n- If the context is in Chinese, you can respond in both Chinese and English as appropriate\n- Be conversational and engaging\n\nAnswer:"

/-- One iteration of the context loop in `generate_rag_prompt` (lines
137-139): the two f-strings appended for the `i`-th (1-based) result. -/
def source_block (i : Nat) (result : SearchResult) : String :=
  "[Source " ++ toString i ++ "] Title: \x27" ++ result.podcast_title ++ "\x27, Tag: \x27"
    ++ pyStr result.podcast_tag ++ "\x27\n"
    ++ "Content: " ++ result.content ++ "\n\n"

/-- The context accumulation loop of `generate_rag_prompt`:
`for i, result in enumerate(search_results, 1): context += ...`. -/
def build_context (search_results : List SearchResult) : String :=
  (List.enumFrom 1 search_results).foldl (fun context p => context ++ source_block p.1 p.2) ""

/-- src/backend/rag_service.py, `RAGService.generate_rag_prompt`: the fixed
template with the stripped context block and the query substituted in. -/
def generate_rag_prompt (query : String) (search_results : List SearchResult) : String :=
  template_head ++ pyStrip (build_context search_results) ++ template_mid ++ query ++ template_tail

/-- src/backend/rag_service.py, `RAGService.generate_answer`: builds the
prompt and sends it to the LLM (SDK path or HTTP fallback, both modelled by
the oracle `llm`).  Returns the answer together with the list of prompts that
were sent to the LLM. -/
def generate_answer (llm : String → String) (query : String)
    (search_results : List SearchResult) : String × List String :=
  let prompt := generate_rag_prompt query search_results
  (llm prompt, [prompt])

end RAGService

/-- Python `round(x, 3)` on a score (ties-to-even on binary floats is not
modelled; scores are rationals and ties round half-up). -/
def round3 (x : Rat) : Rat :=
  (round (x * 1000) : Int) / 1000

/-- One element of the `sources` list assembled by `RAGService.chat` for the
frontend. -/
structure ChatSource where
  title : String
  tag : PyVal
  score : Rat
  content_preview : String

/-- The dict returned by `RAGService.chat` (and by the chat endpoint). -/
structure ChatOutput where
  answer : String
  sources : List ChatSource
  query : String

namespace RAGService

/-- The canned answer `RAGService.chat` returns when search yields nothing
(src/backend/rag_service.py line 220). -/
def no_content_answer : String :=
  "I couldn\x27t find any relevant content to answer your question. Please try rephrasing your question or asking about a different topic."

/-- The source-formatting comprehension in `RAGService.chat` (lines 229-237):
title and tag copied through, score rounded to 3 decimals, content previewed
at 200 characters with a trailing `"..."` when longer. -/
def chat_format_source (result : SearchResult) : ChatSource :=
  { title := result.podcast_title
    tag := result.podcast_tag
    score := round3 result.score
    content_preview :=
      if result.content.length > 200 then result.content.take 200 ++ "..."
      else result.content }

/-- src/backend/rag_service.py, `RAGService.chat`: format the store response,
short-circuit with the canned answer when there are no results, otherwise
generate an answer and format the sources.  The second component is the list
of prompts sent to the LLM (empty exactly when the LLM path was skipped). -/
def chat (llm : String → String) (store_response : List ScoredPoint)
    (query : String) : ChatOutput × List String :=
  let search_results := search_similar_content store_response
  if search_results.isEmpty then
    ({ answer := no_content_answer, sources := [], query := query }, [])
  else
    let a := generate_answer llm query search_results
    ({ answer := a.1
       sources := search_results.map chat_format_source
       query := query }, a.2)

end RAGService

/-- The lazily-initialized handles held by a `RAGService` instance: the
embedding model (identified by the model name it was loaded with) and the
OpenAI client.  `Option.none` means the handle is not yet constructed
(deferred), as set up by `_initialize_clients`. -/
structure RAGState where
  embedding_model : Option String
  llm_client : Option Unit

/-- The `qdrant` entry of the health report: either the collection listing
with the target-existence flag, or the stringified error. -/
inductive QdrantComponent where
  | ok (collections : List String) (target_collection_exists : Bool)
  | err (error : String)
deriving DecidableEq

/-- The `embedding_model` / `openai` entries of the health report. -/
structure ModelComponent where
  status : String
  model : String
deriving DecidableEq

/-- The dict returned by `RAGService.health_check`. -/
structure HealthStatus where
  status : String
  qdrant : QdrantComponent
  embedding_model : ModelComponent
  openai : ModelComponent
deriving DecidableEq

namespace RAGService

/-- src/backend/rag_service.py, `RAGService.health_check`: the
`get_collections` call on the external store is the oracle
`collections` (its stringified exception on failure).  The state is returned
unchanged alongside the report: the method reads `self.embedding_model` and
`self.llm_client` but never assigns them. -/
def health_check (cfg : Config) (collections : Except String (List String))
    (st : RAGState) : HealthStatus × RAGState :=
  let base :=
    match collections with
    | Except.ok collection_names =>
        { status := "healthy"
          qdrant := QdrantComponent.ok collection_names
            (collection_names.contains cfg.COLLECTION_NAME)
          embedding_model := ⟨"", ""⟩, openai := ⟨"", ""⟩ : HealthStatus }
    | Except.error e =>
        { status := "unhealthy"
          qdrant := QdrantComponent.err e
          embedding_model := ⟨"", ""⟩, openai := ⟨"", ""⟩ : HealthStatus }
  let emb : ModelComponent :=
    match st.embedding_model with
    | Option.none => { status := "deferred", model := cfg.EMBEDDING_MODEL }
    | Option.some _ => { status := "initialized", model := cfg.EMBEDDING_MODEL }
  let oai : ModelComponent :=
    match st.llm_client with
    | Option.none => { status := "deferred", model := cfg.LLM_MODEL }
    | Option.some _ => { status := "initialized", model := cfg.LLM_MODEL }
  ({ base with embedding_model := emb, openai := oai }, st)

end RAGService

/-- A FastAPI `HTTPException` value: status code and detail string. -/
structure HTTPException where
  status_code : Nat
  detail : String
deriving DecidableEq

/-- Python `str(e)` on a (starlette) `HTTPException`:
`f"\x7bstatus_code\x7d: \x7bdetail\x7d"`. -/
def httpExcStr (e : HTTPException) : String :=
  toString e.status_code ++ ": " ++ e.detail

/-- The `except Exception as e: raise HTTPException(status_code=500,
detail=str(e))` handler wrapped around the body of every endpoint in
src/backend/main.py.  `HTTPException` subclasses `Exception`, so the 503/400
exceptions raised inside the `try` block are caught here and re-raised with
status 500. -/
def wrap500 {α : Type} : Except HTTPException α → Except HTTPException α
  | Except.ok v => Except.ok v
  | Except.error e => Except.error { status_code := 500, detail := httpExcStr e }

/-- The HTTP status of an endpoint outcome: the raised exception's status
code, or `Option.none` for a 200 success. -/
def errorStatus {α : Type} : Except HTTPException α → Option Nat
  | Except.ok _ => Option.none
  | Except.error e => Option.some e.status_code

/-- The environment an initialized service works against: the LLM oracle, the
store response a vector search would return, and the store's collection
listing (for the health endpoint), plus the held lazy handles. -/
structure ServiceEnv where
  llm : String → String
  store_response : List ScoredPoint
  collections : Except String (List String)
  state : RAGState

/-- The body of `POST /api/chat` (src/backend/main.py `ChatRequest`). -/
structure ChatRequest where
  query : String
  limit : Option Nat

namespace Main

/-- src/backend/main.py, `health_check` endpoint: 503 raised when
`rag_service` is None, otherwise the service report; the surrounding handler
turns every raised exception into a 500. -/
def health_check (cfg : Config) (rag_service : Option ServiceEnv) :
    Except HTTPException HealthStatus :=
  wrap500 (match rag_service with
    | Option.none =>
        Except.error { status_code := 503, detail := "RAG service not initialized" }
    | Option.some env =>
        Except.ok (RAGService.health_check cfg env.collections env.state).1)

/-- src/backend/main.py, `chat` endpoint: 503 when the service is None, 400
when the stripped query is empty, otherwise the pipeline result; the
surrounding handler turns every raised exception into a 500. -/
def chat (rag_service : Option ServiceEnv) (request : ChatRequest) :
    Except HTTPException ChatOutput :=
  wrap500 (match rag_service with
    | Option.none =>
        Except.error { status_code := 503, detail := "RAG service not initialized" }
    | Option.some env =>
        if (pyStrip request.query).isEmpty then
          Except.error { status_code := 400, detail := "Query cannot be empty" }
        else
          Except.ok (RAGService.chat env.llm env.store_response request.query).1)

/-- The dict returned by the search endpoint. -/
structure SearchResponse where
  results : List SearchResult
  query : String

/-- src/backend/main.py, `search` endpoint: same guards as `chat`, returning
the formatted results and the query. -/
def search (rag_service : Option ServiceEnv) (query : String) (limit : Option Nat) :
    Except HTTPException SearchResponse :=
  wrap500 (match rag_service with
    | Option.none =>
        Except.error { status_code := 503, detail := "RAG service not initialized" }
    | Option.some env =>
        if (pyStrip query).isEmpty then
          Except.error { status_code := 400, detail := "Query cannot be empty" }
        else
          Except.ok { results := RAGService.search_similar_content env.store_response
                      query := query })

end Main

/-- Similarity metrics of `qdrant_client.http.models.Distance` (only COSINE
is used by this repository). -/
inductive Distance where
  | COSINE
  | EUCLID
  | DOT
deriving DecidableEq

/-- `models.VectorParams`: dimensionality and metric of a collection. -/
structure VectorParams where
  size : Nat
  distance : Distance
deriving DecidableEq

/-- A call issued to the Qdrant client during ingestion. -/
inductive StoreOp where
  | create_collection (collection_name : String) (params : VectorParams)
  | create_payload_index (collection_name : String) (field_name : String)
deriving DecidableEq

/-- The Qdrant store state visible to `ensure_collection`: the named
collections with their vector parameters, and the payload indexes. -/
structure QdrantState where
  collections : List (String × VectorParams)
  payload_indexes : List (String × String)
deriving DecidableEq

/-- src/backend/ingest_qdrant.py, `ensure_collection`: list the existing
collection names; when the target name is absent, create the collection with
the given size and COSINE distance and attempt a best-effort keyword payload
index on `podcast_tag` (`index_fails` models the `except` branch: the failure
is printed and swallowed); when present, do nothing.  Returns the new store
state and the calls issued. -/
def ensure_collection (index_fails : Bool) (st : QdrantState)
    (collection_name : String) (vector_size : Nat) : QdrantState × List StoreOp :=
  let names := st.collections.map Prod.fst
  if collection_name ∉ names then
    let params : VectorParams := { size := vector_size, distance := Distance.COSINE }
    let st1 := { st with collections := st.collections ++ [(collection_name, params)] }
    if index_fails then
      (st1, [StoreOp.create_collection collection_name params])
    else
      ({ st1 with payload_indexes := st1.payload_indexes ++ [(collection_name, "podcast_tag")] },
       [StoreOp.create_collection collection_name params,
        StoreOp.create_payload_index collection_name "podcast_tag"])
  else
    (st, [])

/-- Written from the spec, for comparison with `RAGService.generate_rag_prompt`:
the context is the concatenation, for each result in input order, of its
labeled source block (title, tag, content), numbered from 1. -/
def spec_context : Nat → List SearchResult → String
  | _, [] => ""
  | i, result :: rest => RAGService.source_block i result ++ spec_context (i + 1) rest

/-- Written from the spec, for comparison with `RAGService.generate_rag_prompt`:
deterministic template substitution — the source blocks in input order,
followed by the literal user question and the fixed instructions, with no
truncation of the assembled context. -/
def spec_buildPrompt (query : String) (results : List SearchResult) : String :=
  RAGService.template_head ++ pyStrip (spec_context 1 results) ++ RAGService.template_mid
    ++ query ++ RAGService.template_tail

/-- A concrete initialized-service environment used to exercise the endpoint
guards at concrete inputs. -/
def stubEnv : ServiceEnv :=
  { llm := fun _ => ""
    store_response := []
    collections := Except.ok []
    state := { embedding_model := Option.none, llm_client := Option.none } }

/-! ## Theorems -/

theorem wrap500_status {α : Type} (x : Except HTTPException α) :
    errorStatus (wrap500 x) = Option.some 500 ∨ errorStatus (wrap500 x) = Option.none := by
  cases x with
  | ok v => exact Or.inr rfl
  | error e => exact Or.inl rfl

/-- C1: the code raises its 400 `HTTPException` for a blank query inside a
`try` whose `except Exception` clause catches it (FastAPI's `HTTPException`
subclasses `Exception`) and re-raises it as a 500; so a blank query to
`POST /api/chat` or `GET /api/search` yields HTTP 500 with the stringified
400-exception as the detail, not HTTP 400, and no request at all is ever
answered with status 400. -/
theorem blank_query_yields_500_not_400 :
    Main.chat (Option.some stubEnv) { query := " ", limit := Option.none }
      = Except.error { status_code := 500, detail := "400: Query cannot be empty" } ∧
    Main.search (Option.some stubEnv) " " Option.none
      = Except.error { status_code := 500, detail := "400: Query cannot be empty" } ∧
    (∀ (service : Option ServiceEnv) (request : ChatRequest),
      errorStatus (Main.chat service request) = Option.some 500 ∨
      errorStatus (Main.chat service request) = Option.none) ∧
    (∀ (service : Option ServiceEnv) (q : String) (l : Option Nat),
      errorStatus (Main.search service q l) = Option.some 500 ∨
      errorStatus (Main.search service q l) = Option.none) := by
  refine ⟨rfl, rfl, ?_, ?_⟩
  · intro service request
    exact wrap500_status _
  · intro service q l
    exact wrap500_status _

/-- C6: when the service object is uninitialized, the 503 `HTTPException`
raised inside the `try` block of each endpoint is caught by its
`except Exception` clause and re-raised as a 500, so `GET /api/health`,
`POST /api/chat` and `GET /api/search` all answer 500 (with the stringified
503-exception as detail), not 503. -/
theorem uninitialized_service_yields_500_not_503 :
    Main.health_check
        { OPENAI_API_KEY := Option.some "k", NOTION_TOKEN := Option.none,
          QDRANT_HOST := "localhost", QDRANT_PORT := 6333,
          COLLECTION_NAME := "podcast_chunks",
          EMBEDDING_MODEL := "paraphrase-multilingual-MiniLM-L12-v2",
          LLM_MODEL := "gpt-4o-mini", DEFAULT_SEARCH_LIMIT := 5 }
        Option.none
      = Except.error { status_code := 500, detail := "503: RAG service not initialized" } ∧
    Main.chat Option.none { query := "hi", limit := Option.none }
      = Except.error { status_code := 500, detail := "503: RAG service not initialized" } ∧
    Main.search Option.none "hi" Option.none
      = Except.error { status_code := 500, detail := "503: RAG service not initialized" } := by
  exact ⟨rfl, rfl, rfl⟩

/-- C2: the chat pipeline sends exactly one prompt to the LLM when the
search step returned at least one result and none when it returned an empty
list, and on an empty result list it returns the canned no-relevant-content
answer, an empty sources list, and the original query. -/
theorem chat_calls_llm_iff_nonempty_results (llm : String → String)
    (store_response : List ScoredPoint) (query : String) :
    ((RAGService.chat llm store_response query).2 ≠ [] ↔
      RAGService.search_similar_content store_response ≠ []) ∧
    ((RAGService.chat llm store_response query).2 =
      if (RAGService.search_similar_content store_response).isEmpty then []
      else [RAGService.generate_rag_prompt query
              (RAGService.search_similar_content store_response)]) ∧
    (RAGService.search_similar_content store_response = [] →
      (RAGService.chat llm store_response query).1 =
        { answer := RAGService.no_content_answer, sources := [], query := query }) := by
  by_cases he : (RAGService.search_similar_content store_response).isEmpty
  · have he' : RAGService.search_similar_content store_response = [] :=
      List.isEmpty_iff.mp he
    refine ⟨?_, ?_, ?_⟩ <;>
      simp [RAGService.chat, RAGService.generate_answer, he, he']
  · have he' : RAGService.search_similar_content store_response ≠ [] :=
      fun hh => he (List.isEmpty_iff.mpr hh)
    refine ⟨?_, ?_, ?_⟩ <;>
      simp [RAGService.chat, RAGService.generate_answer, he, he']

theorem chat_calls_llm_iff_nonempty_results_witness :
    (RAGService.chat (fun _ => "ans") [] "why").1 =
      { answer := RAGService.no_content_answer, sources := [], query := "why" } :=
  (chat_calls_llm_iff_nonempty_results (fun _ => "ans") [] "why").2.2 rfl

/-- C3: the content preview of a formatted chat source is the content itself
when its length is at most 200 characters, and the first 200 characters
followed by the ellipsis marker `"..."` when it is longer. -/
theorem content_preview_truncation (result : SearchResult) :
    (result.content.length ≤ 200 →
      (RAGService.chat_format_source result).content_preview = result.content) ∧
    (200 < result.content.length →
      (RAGService.chat_format_source result).content_preview
        = result.content.take 200 ++ "...") := by
  constructor
  · intro h
    simp [RAGService.chat_format_source, Nat.not_lt.mpr h]
  · intro h
    simp [RAGService.chat_format_source, h]

set_option maxRecDepth 4000 in
theorem content_preview_truncation_witness :
    (RAGService.chat_format_source
      { id := 0, score := 0, podcast_tag := PyVal.str "", podcast_title := "",
        content := "abc" }).content_preview = "abc" ∧
    (RAGService.chat_format_source
      { id := 0, score := 0, podcast_tag := PyVal.str "", podcast_title := "",
        content := String.mk (List.replicate 201 'a') }).content_preview
      = (String.mk (List.replicate 201 'a')).take 200 ++ "..." :=
  ⟨(content_preview_truncation _).1 (by decide),
   (content_preview_truncation _).2 (by decide)⟩

theorem PyVal.isNone_str (s : String) : (PyVal.str s).isNone = false := rfl

theorem pyStr_str (s : String) : pyStr (PyVal.str s) = s := rfl

theorem strlist_filter_map_pyStr (ss : List String) :
    ((ss.map PyVal.str).filter (fun t => !t.isNone)).map pyStr = ss := by
  induction ss with
  | nil => rfl
  | cons s rest ih =>
    simp only [List.map_cons, List.filter_cons, PyVal.isNone_str, Bool.not_false,
      if_pos, pyStr_str, ih]

/-- C4: `search_similar_content` normalizes a list-valued payload tag to the
comma-plus-space join of its elements (a list of strings `ss` becomes
`String.intercalate ", " ss`), and returns any non-list tag value present in
the payload unchanged. -/
theorem search_tag_normalization (sp : ScoredPoint) (p : Payload)
    (hp : sp.payload = Option.some p) :
    (∀ ss : List String,
      p.podcast_tag = Option.some (PyVal.list (ss.map PyVal.str)) →
      (RAGService.format_point sp).podcast_tag
        = PyVal.str (String.intercalate ", " ss)) ∧
    (∀ v : PyVal, p.podcast_tag = Option.some v → v.isList = false →
      (RAGService.format_point sp).podcast_tag = v) := by
  constructor
  · intro ss hs
    simp [RAGService.format_point, hp, hs, strlist_filter_map_pyStr]
  · intro v hv hvl
    cases v <;> simp [RAGService.format_point, hp, hv] <;>
      simp [PyVal.isList] at hvl

theorem search_tag_normalization_witness :
    (RAGService.format_point
      { id := 0, score := 0,
        payload := Option.some
          { podcast_title := Option.none,
            podcast_tag := Option.some (PyVal.list [PyVal.str "a", PyVal.str "b"]),
            content := Option.none } }).podcast_tag = PyVal.str "a, b" ∧
    (RAGService.format_point
      { id := 1, score := 0,
        payload := Option.some
          { podcast_title := Option.none,
            podcast_tag := Option.some (PyVal.str "x"),
            content := Option.none } }).podcast_tag = PyVal.str "x" :=
  ⟨(search_tag_normalization _ _ rfl).1 ["a", "b"] rfl,
   (search_tag_normalization _ _ rfl).2 (PyVal.str "x") rfl rfl⟩

/-- C10: a missing payload, or a payload lacking the title, tag or content
key, makes `search_similar_content` substitute the empty string for the
missing field; and `None` entries of a list-valued tag are dropped while the
remaining entries are stringified before joining, so
`[.str a, .none, .str b]` renders as `a ++ ", " ++ b`. -/
theorem search_missing_payload_defaults (sp : ScoredPoint) :
    (sp.payload = Option.none →
      RAGService.format_point sp =
        { id := sp.id, score := sp.score, podcast_tag := PyVal.str "",
          podcast_title := "", content := "" }) ∧
    (∀ p : Payload, sp.payload = Option.some p →
      (p.podcast_title = Option.none →
        (RAGService.format_point sp).podcast_title = "") ∧
      (p.content = Option.none → (RAGService.format_point sp).content = "") ∧
      (p.podcast_tag = Option.none →
        (RAGService.format_point sp).podcast_tag = PyVal.str "") ∧
      (∀ a b : String,
        p.podcast_tag
          = Option.some (PyVal.list [PyVal.str a, PyVal.none, PyVal.str b]) →
        (RAGService.format_point sp).podcast_tag = PyVal.str (a ++ ", " ++ b))) := by
  constructor
  · intro h
    simp [RAGService.format_point, h]
  · intro p hp
    refine ⟨?_, ?_, ?_, ?_⟩
    · intro h; simp [RAGService.format_point, hp, h]
    · intro h; simp [RAGService.format_point, hp, h]
    · intro h; simp [RAGService.format_point, hp, h]
    · intro a b h
      simp [RAGService.format_point, hp, h, PyVal.isNone, pyStr,
        String.intercalate]
      rfl

theorem search_missing_payload_defaults_witness :
    RAGService.format_point { id := 7, score := 0, payload := Option.none } =
      { id := 7, score := 0, podcast_tag := PyVal.str "", podcast_title := "",
        content := "" } ∧
    (RAGService.format_point
      { id := 8, score := 0,
        payload := Option.some
          { podcast_title := Option.none,
            podcast_tag :=
              Option.some (PyVal.list [PyVal.str "a", PyVal.none, PyVal.str "b"]),
            content := Option.none } }).podcast_tag = PyVal.str "a, b" :=
  ⟨(search_missing_payload_defaults _).1 rfl,
   ((search_missing_payload_defaults _).2 _ rfl).2.2.2 "a" "b" rfl⟩

theorem foldl_source_block (rs : List SearchResult) : ∀ (i : Nat) (a : String),
    (List.enumFrom i rs).foldl (fun context p => context ++ RAGService.source_block p.1 p.2) a
      = a ++ spec_context i rs := by
  induction rs with
  | nil => intro i a; simp [spec_context, String.append_empty]
  | cons r rest ih =>
    intro i a
    simp only [List.enumFrom, List.foldl_cons, spec_context, ih, String.append_assoc]

theorem build_context_eq_spec (rs : List SearchResult) :
    RAGService.build_context rs = spec_context 1 rs := by
  have h := foldl_source_block rs 1 ""
  simpa [RAGService.build_context, String.empty_append] using h

/-- C5: prompt assembly is a deterministic function of the query and the
ordered result list (equal inputs give byte-identical prompts), and the
assembled prompt is exactly the fixed template around the stripped
concatenation of one labeled source block per result in input order followed
by the user question and the fixed instructions — the spec-side
`spec_buildPrompt`, which applies no truncation to the context. -/
theorem prompt_assembly_deterministic (q q2 : String) (rs rs2 : List SearchResult)
    (hq : q = q2) (hr : rs = rs2) :
    RAGService.generate_rag_prompt q rs = RAGService.generate_rag_prompt q2 rs2 ∧
    RAGService.generate_rag_prompt q rs = spec_buildPrompt q rs := by
  subst hq
  subst hr
  exact ⟨rfl, by
    simp [RAGService.generate_rag_prompt, spec_buildPrompt, build_context_eq_spec]⟩

theorem prompt_assembly_deterministic_witness :
    RAGService.generate_rag_prompt "q" [] = RAGService.generate_rag_prompt "q" [] ∧
    RAGService.generate_rag_prompt "q" [] = spec_buildPrompt "q" [] :=
  prompt_assembly_deterministic "q" "q" [] [] rfl rfl

/-- C7: the health check returns the service state unchanged (it never
constructs the embedding model or the LLM client as a side effect), and the
report says "deferred" for a handle exactly when it is not yet constructed
and "initialized" exactly when it is. -/
theorem health_check_frame (cfg : Config) (collections : Except String (List String))
    (st : RAGState) :
    (RAGService.health_check cfg collections st).2 = st ∧
    ((RAGService.health_check cfg collections st).1.embedding_model.status = "deferred"
       ↔ st.embedding_model = Option.none) ∧
    ((RAGService.health_check cfg collections st).1.embedding_model.status = "initialized"
       ↔ st.embedding_model ≠ Option.none) ∧
    ((RAGService.health_check cfg collections st).1.openai.status = "deferred"
       ↔ st.llm_client = Option.none) ∧
    ((RAGService.health_check cfg collections st).1.openai.status = "initialized"
       ↔ st.llm_client ≠ Option.none) := by
  obtain ⟨em, lc⟩ := st
  cases em <;> cases lc <;> cases collections <;>
    simp [RAGService.health_check]

theorem health_check_frame_witness :
    (RAGService.health_check
        { OPENAI_API_KEY := Option.some "k", NOTION_TOKEN := Option.none,
          QDRANT_HOST := "localhost", QDRANT_PORT := 6333,
          COLLECTION_NAME := "podcast_chunks",
          EMBEDDING_MODEL := "paraphrase-multilingual-MiniLM-L12-v2",
          LLM_MODEL := "gpt-4o-mini", DEFAULT_SEARCH_LIMIT := 5 }
        (Except.ok ["podcast_chunks"])
        { embedding_model := Option.none, llm_client := Option.none }).2
      = { embedding_model := Option.none, llm_client := Option.none } :=
  (health_check_frame _ _ _).1

/-- C8: `ensure_collection` is idempotent with respect to creation — when the
configured name is already among the collections it changes nothing and
issues no store call (so no error and no duplicate); when it is absent, the
collection is appended with the configured vector size and COSINE distance
and a create call is issued, for both outcomes of the best-effort payload
index creation (an index failure does not abort). -/
theorem ensure_collection_idempotent (index_fails : Bool) (st : QdrantState)
    (collection_name : String) (vector_size : Nat) :
    (collection_name ∈ st.collections.map Prod.fst →
      ensure_collection index_fails st collection_name vector_size = (st, [])) ∧
    (collection_name ∉ st.collections.map Prod.fst →
      (ensure_collection index_fails st collection_name vector_size).1.collections
        = st.collections
            ++ [(collection_name, { size := vector_size, distance := Distance.COSINE })] ∧
      StoreOp.create_collection collection_name
          { size := vector_size, distance := Distance.COSINE }
        ∈ (ensure_collection index_fails st collection_name vector_size).2) := by
  constructor
  · intro h
    simp [ensure_collection, h]
  · intro h
    cases index_fails <;> simp [ensure_collection, h]

theorem ensure_collection_idempotent_witness :
    ensure_collection false
        { collections := [("podcast_chunks", { size := 384, distance := Distance.COSINE })],
          payload_indexes := [] } "podcast_chunks" 384
      = ({ collections := [("podcast_chunks", { size := 384, distance := Distance.COSINE })],
           payload_indexes := [] }, []) ∧
    ((ensure_collection true { collections := [], payload_indexes := [] }
        "podcast_chunks" 384).1.collections
      = [("podcast_chunks", { size := 384, distance := Distance.COSINE })] ∧
      StoreOp.create_collection "podcast_chunks" { size := 384, distance := Distance.COSINE }
        ∈ (ensure_collection true { collections := [], payload_indexes := [] }
            "podcast_chunks" 384).2) :=
  ⟨(ensure_collection_idempotent false
      { collections := [("podcast_chunks", { size := 384, distance := Distance.COSINE })],
        payload_indexes := [] } "podcast_chunks" 384).1 (by decide),
   (ensure_collection_idempotent true { collections := [], payload_indexes := [] }
      "podcast_chunks" 384).2 (by decide)⟩

theorem getKey_openai (cfg : Config) : cfg.getKey "OPENAI_API_KEY" = cfg.OPENAI_API_KEY :=
  rfl

/-- C9: `Config.validate` raises the configuration error that lists the
missing required keys exactly when the LLM API key is absent or the empty
string, and returns True in every other configuration — the other settings
never matter. -/
theorem config_validate_spec (cfg : Config) :
    ((cfg.OPENAI_API_KEY = Option.none ∨ cfg.OPENAI_API_KEY = Option.some "") →
      cfg.validate = Except.error "Missing required environment variables: OPENAI_API_KEY") ∧
    (∀ s : String, cfg.OPENAI_API_KEY = Option.some s → s ≠ "" →
      cfg.validate = Except.ok true) := by
  constructor
  · rintro (h | h) <;>
      simp [Config.validate, getKey_openai, truthyOptStr, h, List.filter] <;> rfl
  · intro s hs hne
    have hfalse : s.isEmpty = false := by
      cases he : s.isEmpty
      · rfl
      · exact absurd ((String.isEmpty_iff s).mp he) hne
    simp [Config.validate, getKey_openai, truthyOptStr, hs, List.filter, hfalse]

theorem config_validate_spec_witness :
    Config.validate
        { OPENAI_API_KEY := Option.none, NOTION_TOKEN := Option.none,
          QDRANT_HOST := "localhost", QDRANT_PORT := 6333,
          COLLECTION_NAME := "podcast_chunks",
          EMBEDDING_MODEL := "paraphrase-multilingual-MiniLM-L12-v2",
          LLM_MODEL := "gpt-4o-mini", DEFAULT_SEARCH_LIMIT := 5 }
      = Except.error "Missing required environment variables: OPENAI_API_KEY" ∧
    Config.validate
        { OPENAI_API_KEY := Option.some "sk-test", NOTION_TOKEN := Option.none,
          QDRANT_HOST := "localhost", QDRANT_PORT := 6333,
          COLLECTION_NAME := "podcast_chunks",
          EMBEDDING_MODEL := "paraphrase-multilingual-MiniLM-L12-v2",
          LLM_MODEL := "gpt-4o-mini", DEFAULT_SEARCH_LIMIT := 5 }
      = Except.ok true :=
  ⟨(config_validate_spec _).1 (Or.inl rfl),
   (config_validate_spec _).2 "sk-test" rfl (by decide)⟩
